import Mathlib

/-!
Verification of the ToneBridge frontend client-side data pipeline
(`src/utils/index.ts`, `src/components/audio/AudioRecorder.tsx`).

The TypeScript source is shallowly embedded:
* `localStorage` slots are modelled per key as `Option (StoredItem α)`;
  a slot holding bytes that `JSON.parse` rejects is `StoredItem.corrupt`.
* `Date.now()` and the current calendar date are explicit parameters.
* `new Blob([JSON.stringify(xs)]).size` (the UTF-8 byte size of the JSON
  serialization) is an explicit size-function parameter `jsize`; the
  storage-bound theorems hold for every such function.
* JavaScript numbers that are only stored and compared (confidence values,
  timestamps) are modelled as `Int` / `Nat`; no arithmetic is done on them.
* The `Date`/ISO-string round trip (`new Date(s.timestamp)` applied to the
  serialized timestamp) is a bijection collapsed to the identity, kept as the
  explicit `reviveSegment` step so the data flow matches the source.
-/

namespace ToneBridge

/-- `TranscriptionSegment` from `src/types/index.ts` (lines 137-145).
`confidence` (a JS float) is modelled as `Int`; `timestamp` (a JS `Date`)
as epoch milliseconds. -/
structure TranscriptionSegment where
  id : String
  text : String
  emotion : Option String
  emoji : Option String
  confidence : Int
  timestamp : Nat
  isHighlighted : Option Bool
deriving DecidableEq, Repr

/-- One `localStorage` slot as written by `StorageUtils.set`
(`src/utils/index.ts` lines 264-271): the stored item wraps the value with
a write timestamp and an optional expiry.  `corrupt` stands for persisted
bytes that `JSON.parse` rejects. -/
inductive StoredItem (α : Type) where
  | corrupt
  | ok (value : α) (timestamp : Nat) (expiresAt : Option Nat)
deriving DecidableEq, Repr

/-- A keyed slot of the raw substrate: `none` models an absent key. -/
abbrev RawSlot (α : Type) := Option (StoredItem α)

namespace StorageUtils

/-- `StorageUtils.set` (`src/utils/index.ts` lines 264-271). -/
def set {α : Type} (now : Nat) (value : α) (expiresIn : Option Nat) : RawSlot α :=
  some (.ok value now (expiresIn.map (now + ·)))

/-- `StorageUtils.get` (`src/utils/index.ts` lines 273-287).  Returns the
read value together with the slot after the call (an expired item is
removed; a corrupt item makes `JSON.parse` throw, the `catch` returns
`null` and leaves the slot in place). -/
def get {α : Type} (now : Nat) (slot : RawSlot α) : Option α × RawSlot α :=
  match slot with
  | none => (none, none)
  | some .corrupt => (none, some .corrupt)
  | some (.ok v ts exp) =>
    match exp with
    | some e => if now > e then (none, none) else (some v, some (.ok v ts exp))
    | none => (some v, some (.ok v ts none))

end StorageUtils

/-! ### Transcript storage (`TranscriptStorageManager`) -/

/-- The value stored under the `transcripts` key.  `nonArray` models a
well-formed JSON value that is not an array (on read, `.map` throws and
the `catch` yields `[]`). -/
inductive TranscriptValue where
  | arr (segments : List TranscriptionSegment)
  | nonArray
deriving DecidableEq, Repr

namespace TranscriptStorageManager

/-- `MAX_TRANSCRIPTS` (`src/utils/index.ts` line 586). -/
def MAX_TRANSCRIPTS : Nat := 1000

/-- `MAX_STORAGE_SIZE` (`src/utils/index.ts` line 587). -/
def MAX_STORAGE_SIZE : Nat := 5 * 1024 * 1024

/-- The `{...segment, timestamp: new Date(segment.timestamp)}` step used by
`getTranscripts` and `importTranscripts`; the serialize/parse bijection on
timestamps is the identity in this model. -/
def reviveSegment (s : TranscriptionSegment) : TranscriptionSegment :=
  { s with timestamp := s.timestamp }

/-- `TranscriptStorageManager.getTranscripts` (`src/utils/index.ts`
lines 590-604): absent, corrupt or non-array data yields `[]`. -/
def getTranscripts (now : Nat) (slot : RawSlot TranscriptValue) :
    List TranscriptionSegment × RawSlot TranscriptValue :=
  let (stored, slot') := StorageUtils.get now slot
  match stored with
  | none => ([], slot')
  | some .nonArray => ([], slot')
  | some (.arr l) => (l.map reviveSegment, slot')

/-- `TranscriptStorageManager.reduceTranscriptsToFit` (`src/utils/index.ts`
lines 657-665): while nonempty and over budget, drop the oldest (head). -/
def reduceTranscriptsToFit (jsize : List TranscriptionSegment → Nat) :
    List TranscriptionSegment → List TranscriptionSegment
  | [] => []
  | s :: rest =>
    if jsize (s :: rest) ≤ MAX_STORAGE_SIZE then s :: rest
    else reduceTranscriptsToFit jsize rest

/-- The list `saveTranscripts` persists for a given input
(`src/utils/index.ts` lines 607-624): `transcripts.slice(-MAX_TRANSCRIPTS)`,
then the byte-budget reduction when the serialized size exceeds the limit. -/
def saveResult (jsize : List TranscriptionSegment → Nat)
    (transcripts : List TranscriptionSegment) : List TranscriptionSegment :=
  let limited := transcripts.drop (transcripts.length - MAX_TRANSCRIPTS)
  if jsize limited > MAX_STORAGE_SIZE then reduceTranscriptsToFit jsize limited
  else limited

/-- `TranscriptStorageManager.saveTranscripts` (`src/utils/index.ts`
lines 607-624) as a slot transformer. -/
def saveTranscripts (jsize : List TranscriptionSegment → Nat) (now : Nat)
    (transcripts : List TranscriptionSegment) (_slot : RawSlot TranscriptValue) :
    RawSlot TranscriptValue :=
  StorageUtils.set now (.arr (saveResult jsize transcripts)) none

/-- `TranscriptStorageManager.addTranscript` (`src/utils/index.ts`
lines 627-631). -/
def addTranscript (jsize : List TranscriptionSegment → Nat) (now : Nat)
    (t : TranscriptionSegment) (slot : RawSlot TranscriptValue) :
    RawSlot TranscriptValue :=
  let (transcripts, slot') := getTranscripts now slot
  saveTranscripts jsize now (transcripts ++ [t]) slot'

/-- `TranscriptStorageManager.addTranscripts` (`src/utils/index.ts`
lines 634-638). -/
def addTranscripts (jsize : List TranscriptionSegment → Nat) (now : Nat)
    (ts : List TranscriptionSegment) (slot : RawSlot TranscriptValue) :
    RawSlot TranscriptValue :=
  let (transcripts, slot') := getTranscripts now slot
  saveTranscripts jsize now (transcripts ++ ts) slot'

/-- The three write entry points of the manager that funnel into
`saveTranscripts`. -/
inductive TranscriptOp where
  | save (transcripts : List TranscriptionSegment)
  | add (t : TranscriptionSegment)
  | addMany (ts : List TranscriptionSegment)
deriving Repr

/-- The list each operation hands to `saveTranscripts`. -/
def opInput (now : Nat) (op : TranscriptOp) (slot : RawSlot TranscriptValue) :
    List TranscriptionSegment :=
  match op with
  | .save l => l
  | .add t => (getTranscripts now slot).1 ++ [t]
  | .addMany l => (getTranscripts now slot).1 ++ l

/-- Running one write operation against the slot. -/
def applyOp (jsize : List TranscriptionSegment → Nat) (now : Nat)
    (op : TranscriptOp) (slot : RawSlot TranscriptValue) : RawSlot TranscriptValue :=
  match op with
  | .save l => saveTranscripts jsize now l slot
  | .add t => addTranscript jsize now t slot
  | .addMany l => addTranscripts jsize now l slot

/-- The segment sequence currently persisted in the slot, if any. -/
def persistedSegments (slot : RawSlot TranscriptValue) :
    Option (List TranscriptionSegment) :=
  match slot with
  | some (.ok (.arr l) _ _) => some l
  | _ => none

end TranscriptStorageManager

/-! ### User settings and the preferences migration -/

/-- `DisplayMode` from `src/types/index.ts` (lines 147-152). -/
structure DisplayMode where
  id : String
  name : String
  description : String
  icon : String
deriving DecidableEq, Repr

/-- The nested accessibility flags of `UserSettings`. -/
structure Accessibility where
  reducedMotion : Bool
  dyslexiaFriendly : Bool
deriving DecidableEq, Repr

/-- `UserSettings` from `src/types/index.ts` (lines 113-124) in its persisted
shape: a legacy stored record may lack `displayMode`, hence `Option`. -/
structure UserSettings where
  theme : String
  fontSize : String
  showEmojis : Bool
  showTags : Bool
  autoSave : Bool
  displayMode : Option DisplayMode
  accessibility : Accessibility
deriving DecidableEq, Repr

/-- The default display mode filled by the migration
(`src/utils/index.ts` lines 310-315, 327-332, 395-399, 429-434). -/
def defaultDisplayMode : DisplayMode :=
  { id := "combined", name := "Combined",
    description := "Show both emojis and tags", icon := "heartOutline" }

/-- The default settings record (`StorageUtils.getSettings` lines 304-320 and
`DailyStorageManager.getDefaultSettings` lines 422-440; the two literals in
the source are identical). -/
def defaultSettings : UserSettings :=
  { theme := "modern-blue", fontSize := "medium",
    showEmojis := true, showTags := true, autoSave := true,
    displayMode := some defaultDisplayMode,
    accessibility := { reducedMotion := false, dyslexiaFriendly := false } }

namespace StorageUtils

/-- `StorageUtils.saveSettings` (`src/utils/index.ts` lines 342-344). -/
def saveSettings (now : Nat) (settings : UserSettings) : RawSlot UserSettings :=
  set now settings none

/-- `StorageUtils.getSettings` (`src/utils/index.ts` lines 299-340):
defaults when nothing is saved; when the saved record lacks `displayMode`,
fills the default in place, re-persists and returns the migrated record. -/
def getSettings (now : Nat) (slot : RawSlot UserSettings) :
    UserSettings × RawSlot UserSettings :=
  let (savedSettings, slot') := get now slot
  match savedSettings with
  | none => (defaultSettings, slot')
  | some s =>
    match s.displayMode with
    | none =>
      let migratedSettings := { s with displayMode := some defaultDisplayMode }
      (migratedSettings, saveSettings now migratedSettings)
    | some _ => (s, slot')

end StorageUtils

/-! ### Daily storage (`DailyStorageManager`) -/

/-- The `metadata` field of `DailyStorageData`
(`src/types/index.ts` lines 209-214). -/
structure DailyMetadata where
  lastUpdated : Nat
  storageSize : Nat
  transcriptCount : Nat
  themeLastChanged : Nat
deriving DecidableEq, Repr

/-- `DailyStorageData` from `src/types/index.ts` (lines 205-215). -/
structure DailyStorageData where
  date : String
  settings : UserSettings
  transcripts : List TranscriptionSegment
  metadata : DailyMetadata
deriving DecidableEq, Repr

namespace DailyStorageManager

/-- `DailyStorageManager.saveData` (`src/utils/index.ts` lines 412-419):
set `metadata.lastUpdated`, then recompute `metadata.storageSize` from the
full serialization of the (already-updated) record.  `calc_` stands for
`calculateStorageSize`, the serialized byte size. -/
def saveDataValue (calc_ : DailyStorageData → Nat) (now : Nat)
    (data : DailyStorageData) : DailyStorageData :=
  let d1 := { data with metadata.lastUpdated := now }
  { d1 with metadata.storageSize := calc_ d1 }

/-- The slot written by `saveData` (`StorageUtils.set` on the
`daily_data` key). -/
def saveData (calc_ : DailyStorageData → Nat) (now : Nat)
    (data : DailyStorageData) : RawSlot DailyStorageData :=
  StorageUtils.set now (saveDataValue calc_ now data) none

/-- `DailyStorageManager.getCurrentData` (`src/utils/index.ts`
lines 365-409).  `today` is the current `YYYY-MM-DD` key.  On a date
mismatch (or nothing stored) it builds a fresh record whose settings are
`getDefaultSettings()`; when the stored record matches today but its
settings lack `displayMode`, it migrates in place and re-persists.
Returns the (possibly saved) record and the slot after the call; the JS
code returns the very object it passed to `saveData`, which `saveData`
mutates, so the saved value is returned here. -/
def getCurrentData (calc_ : DailyStorageData → Nat) (now : Nat) (today : String)
    (slot : RawSlot DailyStorageData) : DailyStorageData × RawSlot DailyStorageData :=
  let (stored, slot') := StorageUtils.get now slot
  match stored with
  | none =>
    let newData : DailyStorageData :=
      { date := today, settings := defaultSettings, transcripts := [],
        metadata := { lastUpdated := now, storageSize := 0,
                      transcriptCount := 0, themeLastChanged := now } }
    (saveDataValue calc_ now newData, saveData calc_ now newData)
  | some stored =>
    if stored.date ≠ today then
      let newData : DailyStorageData :=
        { date := today, settings := defaultSettings, transcripts := [],
          metadata := { lastUpdated := now, storageSize := 0,
                        transcriptCount := 0, themeLastChanged := now } }
      (saveDataValue calc_ now newData, saveData calc_ now newData)
    else if stored.settings.displayMode.isNone then
      let migratedData : DailyStorageData :=
        { stored with settings :=
            { stored.settings with displayMode := some defaultDisplayMode } }
      (saveDataValue calc_ now migratedData, saveData calc_ now migratedData)
    else
      (stored, slot')

/-- `DailyStorageManager.resetDailyData` (`src/utils/index.ts`
lines 499-517): reads via `getCurrentData`, then writes the same record
with today's date, empty transcripts and zeroed counters. -/
def resetDailyData (calc_ : DailyStorageData → Nat) (now : Nat) (today : String)
    (slot : RawSlot DailyStorageData) : RawSlot DailyStorageData :=
  let (data, _) := getCurrentData calc_ now today slot
  let newData : DailyStorageData :=
    { data with
      date := today
      transcripts := []
      metadata := { data.metadata with
                    transcriptCount := 0
                    storageSize := 0
                    lastUpdated := now } }
  saveData calc_ now newData

end DailyStorageManager

/-! ### Transcript export/import -/

namespace TranscriptStorageManager

/-- What `JSON.parse` makes of the string handed to `importTranscripts`:
`invalidJson` models a string `JSON.parse` throws on; `parsed .nonArray` a
valid JSON value that is not an array; `parsed (.arr l)` an array of
segment records. -/
inductive ImportInput where
  | invalidJson
  | parsed (v : TranscriptValue)
deriving DecidableEq, Repr

/-- `TranscriptStorageManager.importTranscripts` (`src/utils/index.ts`
lines 680-701): parse, reject non-arrays, revive timestamps, then
`saveTranscripts`; any thrown error is caught and yields `false` with no
write. -/
def importTranscripts (jsize : List TranscriptionSegment → Nat) (now : Nat)
    (input : ImportInput) (slot : RawSlot TranscriptValue) :
    Bool × RawSlot TranscriptValue :=
  match input with
  | .invalidJson => (false, slot)
  | .parsed .nonArray => (false, slot)
  | .parsed (.arr imported) =>
    let validatedTranscripts := imported.map reviveSegment
    (true, saveTranscripts jsize now validatedTranscripts slot)

/-- `TranscriptStorageManager.exportTranscripts` (`src/utils/index.ts`
lines 674-677) composed with `JSON.parse` of the produced string: the
export string is `JSON.stringify(getTranscripts(), null, 2)`, a valid JSON
array, so parsing it back yields exactly the exported segment array. -/
def exportTranscripts (now : Nat) (slot : RawSlot TranscriptValue) :
    ImportInput × RawSlot TranscriptValue :=
  let (transcripts, slot') := getTranscripts now slot
  (.parsed (.arr transcripts), slot')

end TranscriptStorageManager

/-! ### Transport (`ApiUtils.request`) -/

namespace ApiUtils

/-- `maxRetries` (`src/utils/index.ts` line 12). -/
def maxRetries : Nat := 3

/-- `retryDelay` (`src/utils/index.ts` line 13). -/
def retryDelay : Nat := 1000

/-- What one `fetch` attempt produces: a parsed 2xx response carrying data,
a non-ok HTTP response (status plus the body text and `statusText`), or a
thrown error (network failure, abort) with its message. -/
inductive FetchOutcome (α : Type) where
  | ok (data : α)
  | http (status : Nat) (errorText : String) (statusText : String)
  | throwErr (msg : String)

/-- Whether `needle` occurs as a contiguous run in `haystack`. -/
def containsSubstrAux (needle : List Char) : List Char → Bool
  | [] => needle.isEmpty
  | c :: rest => needle.isPrefixOf (c :: rest) || containsSubstrAux needle rest

/-- `msg.includes(needle)` on the message strings of the retry logic. -/
def containsSubstr (needle haystack : String) : Bool :=
  containsSubstrAux needle.toList haystack.toList

/-- The per-status error messages thrown by `ApiUtils.request`
(`src/utils/index.ts` lines 67-84). -/
def messageOfStatus (status : Nat) (errorText statusText : String) : String :=
  if status = 0 then "Network error - check your connection and try again"
  else if status = 404 then "API endpoint not found - please check the server configuration"
  else if status = 413 then "Audio file too large - please record a shorter message"
  else if status = 500 then "Server error - please try again later"
  else if status = 503 then "Service temporarily unavailable - please try again later"
  else "Server error (" ++ toString status ++ "): "
         ++ (if errorText = "" then statusText else errorText)

/-- The error an attempt raises, if any (`fetch` throw or the non-ok
branch above). -/
def outcomeResult {α : Type} : FetchOutcome α → Except String α
  | .ok d => .ok d
  | .http status errorText statusText => .error (messageOfStatus status errorText statusText)
  | .throwErr m => .error m

/-- The "don't retry on certain errors" test (`src/utils/index.ts`
lines 96-101): substring matching on the caught error's message. -/
def isNonRetryable (msg : String) : Bool :=
  containsSubstr "abort" msg
    || containsSubstr "signal is aborted" msg
    || containsSubstr "Network error" msg
    || containsSubstr "API endpoint not found" msg

/-- The user-facing message built after the loop
(`src/utils/index.ts` lines 114-128). -/
def finalErrorMessage (lastError : Option String) : String :=
  match lastError with
  | none => "API request failed"
  | some m =>
    if containsSubstr "Failed to fetch" m then
      "Cannot connect to server. Please check your internet connection and try again."
    else if containsSubstr "abort" m || containsSubstr "signal is aborted" m then
      "Request timed out. The server is taking longer than expected to process your audio. Please try again."
    else if containsSubstr "Network error" m then
      "Network connection issue. Please check your connection and try again."
    else m

/-- Observable trace of one `request` call: the returned value or thrown
message, the number of `fetch` attempts made, and the inter-attempt
backoff delays in order. -/
structure RequestTrace (α : Type) where
  result : Except String α
  attemptsMade : Nat
  delays : List Nat
deriving Repr

/-- The retry loop of `ApiUtils.request` (`src/utils/index.ts`
lines 60-110).  `attempt` is the 1-based attempt counter, `fuel` the number
of attempts still allowed (`maxRetries - attempt + 1`); the delay before a
retry is `retryDelay * attempt`, and non-retryable messages break out of
the loop at once. -/
def requestGo {α : Type} (outcomes : Nat → FetchOutcome α) :
    Nat → Nat → Option String → RequestTrace α
  | _, 0, lastError => ⟨.error (finalErrorMessage lastError), 0, []⟩
  | attempt, fuel + 1, _ =>
    match outcomeResult (outcomes attempt) with
    | .ok d => ⟨.ok d, 1, []⟩
    | .error msg =>
      if isNonRetryable msg then ⟨.error (finalErrorMessage (some msg)), 1, []⟩
      else if fuel = 0 then ⟨.error (finalErrorMessage (some msg)), 1, []⟩
      else
        let rest := requestGo outcomes (attempt + 1) fuel (some msg)
        ⟨rest.result, rest.attemptsMade + 1, retryDelay * attempt :: rest.delays⟩

/-- `ApiUtils.request` run against per-attempt outcomes. -/
def requestTrace {α : Type} (outcomes : Nat → FetchOutcome α) : RequestTrace α :=
  requestGo outcomes 1 maxRetries none

end ApiUtils

/-! ### Audio recorder (`AudioRecorder.tsx`) -/

namespace AudioRecorder

/-- The resources `startRecording` acquires
(`src/components/audio/AudioRecorder.tsx`): `streamRef` with its live
tracks, the `durationIntervalRef` timer, and the component's error state. -/
structure RecorderRefs where
  streamLive : Bool
  timerActive : Bool
  errorState : Option String
deriving DecidableEq, Repr

/-- Which callback a stop delivered: `onRecordingComplete` with the blob's
byte size and the measured duration (milliseconds here; the source divides
by 1000), or `onRecordingError`. -/
inductive StopOutcome where
  | completed (payloadSize : Nat) (durationMs : Nat)
  | errored (msg : String)
deriving DecidableEq, Repr

/-- `mediaRecorder.onstop` (`AudioRecorder.tsx` lines 121-159): build one
blob from the buffered chunks (its size is the sum of the chunk sizes),
invoke `onRecordingComplete` with it unconditionally, then stop the stream
tracks and clear the duration timer.  `chunks` lists the buffered chunk
sizes (`ondataavailable` only buffers chunks with `size > 0`, so an empty
list models a capture that produced no data). -/
def onstopHandler (chunks : List Nat) (startTime now : Nat)
    (r : RecorderRefs) : StopOutcome × RecorderRefs :=
  let blobSize := chunks.foldl (· + ·) 0
  (.completed blobSize (now - startTime),
    { r with streamLive := false, timerActive := false })

/-- `mediaRecorder.onerror` (`AudioRecorder.tsx` lines 161-166): record the
error and invoke `onRecordingError`; the stream tracks, the recorder and
the duration timer are not touched. -/
def onerrorHandler (msg : String) (r : RecorderRefs) : RecorderRefs :=
  { r with errorState := some ("Recording error: " ++ msg) }

/-- The error-name-to-message mapping of `startRecording`'s `catch`
(`AudioRecorder.tsx` lines 189-210). -/
def catchMessage (errName errMsg : String) : String :=
  if errName = "NotAllowedError" then
    "Microphone access denied. Please allow microphone access and try again."
  else if errName = "NotFoundError" then
    "No microphone found. Please connect a microphone and try again."
  else if errName = "NotSupportedError" then
    "Recording not supported in this browser. Please try a different browser."
  else if errName = "SecurityError" then
    "Microphone access blocked. Please use HTTPS or localhost for secure access."
  else errMsg

/-- `startRecording`'s `catch` block (`AudioRecorder.tsx` lines 189-210):
set the error state and call `onRecordingError`; nothing is released. -/
def startRecordingCatch (errName errMsg : String) (r : RecorderRefs) : RecorderRefs :=
  { r with errorState := some (catchMessage errName errMsg) }

/-- How one `startRecording` call can unfold
(`AudioRecorder.tsx` lines 75-211). -/
inductive StartScenario where
  | getUserMediaFails (errName errMsg : String)
  | recorderCtorFails (errName errMsg : String)
  | started
deriving DecidableEq, Repr

/-- `startRecording` (`AudioRecorder.tsx` lines 75-211).  On
`getUserMediaFails` the `catch` runs with no stream acquired; on
`recorderCtorFails` the stream was already stored in `streamRef`
(line 99) before `new MediaRecorder` threw (line 105), and the `catch`
does not stop its tracks; on success the stream is live and the duration
timer is running. -/
def startRecordingRun (scenario : StartScenario) (r : RecorderRefs) : RecorderRefs :=
  match scenario with
  | .getUserMediaFails errName errMsg => startRecordingCatch errName errMsg r
  | .recorderCtorFails errName errMsg =>
    startRecordingCatch errName errMsg { r with streamLive := true }
  | .started => { r with streamLive := true, timerActive := true, errorState := none }

/-- The unmount cleanup effect (`AudioRecorder.tsx` lines 238-247). -/
def unmountCleanup (r : RecorderRefs) : RecorderRefs :=
  { r with streamLive := false, timerActive := false }

end AudioRecorder

/-! ## Theorems -/

namespace TranscriptStorageManager

theorem reviveSegment_eq (s : TranscriptionSegment) : reviveSegment s = s := rfl

theorem map_reviveSegment (l : List TranscriptionSegment) : l.map reviveSegment = l := by
  have h : reviveSegment = id := funext fun s => rfl
  rw [h, List.map_id]

theorem reduceTranscriptsToFit_suffix (jsize : List TranscriptionSegment → Nat)
    (l : List TranscriptionSegment) : reduceTranscriptsToFit jsize l <:+ l := by
  induction l with
  | nil => simp [reduceTranscriptsToFit]
  | cons s rest ih =>
    simp only [reduceTranscriptsToFit]
    split
    · exact List.suffix_refl _
    · exact ih.trans (List.suffix_cons s rest)

theorem reduceTranscriptsToFit_fits (jsize : List TranscriptionSegment → Nat)
    (l : List TranscriptionSegment) :
    jsize (reduceTranscriptsToFit jsize l) ≤ MAX_STORAGE_SIZE ∨
      reduceTranscriptsToFit jsize l = [] := by
  induction l with
  | nil => exact Or.inr rfl
  | cons s rest ih =>
    simp only [reduceTranscriptsToFit]
    split
    · next h => exact Or.inl h
    · exact ih

theorem saveResult_spec (jsize : List TranscriptionSegment → Nat)
    (ts : List TranscriptionSegment) :
    (saveResult jsize ts).length ≤ MAX_TRANSCRIPTS ∧
    (jsize (saveResult jsize ts) ≤ MAX_STORAGE_SIZE ∨ saveResult jsize ts = []) ∧
    saveResult jsize ts <:+ ts := by
  have hsuf : ts.drop (ts.length - MAX_TRANSCRIPTS) <:+ ts := List.drop_suffix _ _
  have hlen : (ts.drop (ts.length - MAX_TRANSCRIPTS)).length ≤ MAX_TRANSCRIPTS := by
    rw [List.length_drop]; omega
  have hstep : saveResult jsize ts =
      if jsize (ts.drop (ts.length - MAX_TRANSCRIPTS)) > MAX_STORAGE_SIZE then
        reduceTranscriptsToFit jsize (ts.drop (ts.length - MAX_TRANSCRIPTS))
      else ts.drop (ts.length - MAX_TRANSCRIPTS) := rfl
  rw [hstep]
  by_cases h : jsize (ts.drop (ts.length - MAX_TRANSCRIPTS)) > MAX_STORAGE_SIZE
  · rw [if_pos h]
    refine ⟨?_, reduceTranscriptsToFit_fits jsize _,
      (reduceTranscriptsToFit_suffix jsize _).trans hsuf⟩
    exact le_trans (reduceTranscriptsToFit_suffix jsize _).sublist.length_le hlen
  · rw [if_neg h]
    exact ⟨hlen, Or.inl (by omega), hsuf⟩

/-- C1: every write through `saveTranscripts` (directly, or via
`addTranscript` / `addTranscripts`) persists exactly the reduction of the
input list; the persisted sequence has at most 1000 segments, its
serialized size is within the 5MB budget unless it is empty, and it is a
suffix of the list handed to `saveTranscripts` (eviction is deterministic
oldest-first).  `jsize` is the serialized byte size
(`new Blob([JSON.stringify(xs)]).size`); the bounds hold for every such
size function. -/
theorem c1_eviction_invariant (jsize : List TranscriptionSegment → Nat)
    (now : Nat) (op : TranscriptOp) (slot : RawSlot TranscriptValue) :
    persistedSegments (applyOp jsize now op slot)
        = some (saveResult jsize (opInput now op slot)) ∧
    (saveResult jsize (opInput now op slot)).length ≤ 1000 ∧
    (jsize (saveResult jsize (opInput now op slot)) ≤ 5 * 1024 * 1024 ∨
      saveResult jsize (opInput now op slot) = []) ∧
    saveResult jsize (opInput now op slot) <:+ opInput now op slot := by
  refine ⟨?_, (saveResult_spec jsize _).1, (saveResult_spec jsize _).2.1,
    (saveResult_spec jsize _).2.2⟩
  cases op <;> rfl

/-- C9: `importTranscripts` returns `false` and leaves the slot untouched on
a string that is not valid JSON or does not parse to an array; whenever it
returns `false` the slot is unchanged, so it writes only on inputs for
which it returns `true`. -/
theorem c9_import_rejects_invalid (jsize : List TranscriptionSegment → Nat)
    (now : Nat) (slot : RawSlot TranscriptValue) (input : ImportInput) :
    importTranscripts jsize now .invalidJson slot = (false, slot) ∧
    importTranscripts jsize now (.parsed .nonArray) slot = (false, slot) ∧
    ((importTranscripts jsize now input slot).1 = false →
      (importTranscripts jsize now input slot).2 = slot) := by
  refine ⟨rfl, rfl, ?_⟩
  cases input with
  | invalidJson => intro _; rfl
  | parsed v =>
    cases v with
    | nonArray => intro _; rfl
    | arr l => intro h; exact absurd h (by simp [importTranscripts])

theorem c9_import_rejects_invalid_witness :
    (importTranscripts (fun l => l.length) 0 .invalidJson none).2
      = (none : RawSlot TranscriptValue) :=
  (c9_import_rejects_invalid (fun l => l.length) 0 none .invalidJson).2.2 rfl

/-- C10: for a persisted sequence of at most 1000 segments whose serialized
size is within the 5MB budget, `importTranscripts (exportTranscripts())`
returns `true` and re-persists exactly the original sequence, segment by
segment. -/
theorem c10_export_import_roundtrip (jsize : List TranscriptionSegment → Nat)
    (now ts : Nat) (l : List TranscriptionSegment)
    (hlen : l.length ≤ 1000) (hsize : jsize l ≤ 5 * 1024 * 1024) :
    (importTranscripts jsize now
        (exportTranscripts now (some (.ok (.arr l) ts none))).1
        (exportTranscripts now (some (.ok (.arr l) ts none))).2).1 = true ∧
    (getTranscripts now
        (importTranscripts jsize now
          (exportTranscripts now (some (.ok (.arr l) ts none))).1
          (exportTranscripts now (some (.ok (.arr l) ts none))).2).2).1 = l := by
  have hexp : exportTranscripts now (some (.ok (.arr l) ts none))
      = (.parsed (.arr l), some (.ok (.arr l) ts none)) := by
    simp [exportTranscripts, getTranscripts, StorageUtils.get, map_reviveSegment]
  have hdrop : l.drop (l.length - MAX_TRANSCRIPTS) = l := by
    have h0 : l.length - MAX_TRANSCRIPTS = 0 := by
      have : MAX_TRANSCRIPTS = 1000 := rfl
      omega
    rw [h0, List.drop_zero]
  have hsr : saveResult jsize l = l := by
    have hstep : saveResult jsize l =
        if jsize (l.drop (l.length - MAX_TRANSCRIPTS)) > MAX_STORAGE_SIZE then
          reduceTranscriptsToFit jsize (l.drop (l.length - MAX_TRANSCRIPTS))
        else l.drop (l.length - MAX_TRANSCRIPTS) := rfl
    have hmax : MAX_STORAGE_SIZE = 5 * 1024 * 1024 := rfl
    rw [hstep, hdrop, if_neg (by omega)]
  rw [hexp]
  constructor
  · rfl
  · simp [importTranscripts, saveTranscripts, map_reviveSegment, hsr,
      getTranscripts, StorageUtils.get, StorageUtils.set]

theorem c10_export_import_roundtrip_witness :
    (importTranscripts (fun xs => 100 * xs.length) 5
        (exportTranscripts 5 (some (.ok (.arr
          [{ id := "a", text := "hello", emotion := some "joy",
             emoji := some "smile", confidence := 9, timestamp := 42,
             isHighlighted := none }]) 3 none))).1
        (exportTranscripts 5 (some (.ok (.arr
          [{ id := "a", text := "hello", emotion := some "joy",
             emoji := some "smile", confidence := 9, timestamp := 42,
             isHighlighted := none }]) 3 none))).2).1 = true ∧
    (getTranscripts 5
        (importTranscripts (fun xs => 100 * xs.length) 5
          (exportTranscripts 5 (some (.ok (.arr
            [{ id := "a", text := "hello", emotion := some "joy",
               emoji := some "smile", confidence := 9, timestamp := 42,
               isHighlighted := none }]) 3 none))).1
          (exportTranscripts 5 (some (.ok (.arr
            [{ id := "a", text := "hello", emotion := some "joy",
               emoji := some "smile", confidence := 9, timestamp := 42,
               isHighlighted := none }]) 3 none))).2).2).1
      = [{ id := "a", text := "hello", emotion := some "joy",
           emoji := some "smile", confidence := 9, timestamp := 42,
           isHighlighted := none }] :=
  c10_export_import_roundtrip (fun xs => 100 * xs.length) 5 3
    [{ id := "a", text := "hello", emotion := some "joy",
       emoji := some "smile", confidence := 9, timestamp := 42,
       isHighlighted := none }] (by decide) (by decide)

end TranscriptStorageManager

/-- C2 (code bug): with a stored bucket dated `2024-01-01` holding
non-default settings (theme `dark`) and a current date of `2024-01-02`,
`DailyStorageManager.getCurrentData` returns (and persists) a bucket dated
`2024-01-02` with empty transcripts whose settings are
`getDefaultSettings()` — the stored preferences are reset, not carried
forward, contradicting the `resetDailyData` comment "(keeps settings,
clears transcripts)". -/
theorem c2_rotation_resets_settings :
    (DailyStorageManager.getCurrentData (fun _ => 0) 100 "2024-01-02"
        (some (.ok { date := "2024-01-01"
                     settings := { defaultSettings with theme := "dark" }
                     transcripts := []
                     metadata := { lastUpdated := 0, storageSize := 0,
                                   transcriptCount := 0, themeLastChanged := 0 } }
          0 none))).1.date = "2024-01-02" ∧
    (DailyStorageManager.getCurrentData (fun _ => 0) 100 "2024-01-02"
        (some (.ok { date := "2024-01-01"
                     settings := { defaultSettings with theme := "dark" }
                     transcripts := []
                     metadata := { lastUpdated := 0, storageSize := 0,
                                   transcriptCount := 0, themeLastChanged := 0 } }
          0 none))).1.transcripts = [] ∧
    (DailyStorageManager.getCurrentData (fun _ => 0) 100 "2024-01-02"
        (some (.ok { date := "2024-01-01"
                     settings := { defaultSettings with theme := "dark" }
                     transcripts := []
                     metadata := { lastUpdated := 0, storageSize := 0,
                                   transcriptCount := 0, themeLastChanged := 0 } }
          0 none))).1.settings = defaultSettings ∧
    defaultSettings ≠ { defaultSettings with theme := "dark" } := by
  refine ⟨rfl, rfl, rfl, ?_⟩
  decide

/-- C3: the preferences migration is idempotent — a second application of
`StorageUtils.getSettings` or `DailyStorageManager.getCurrentData` to the
state left by the first returns the same record and leaves the store
byte-identical; and a stored settings record lacking `displayMode` is
filled with the default display mode in place and re-persisted. -/
theorem c3_migration_idempotent :
    (∀ (now : Nat) (slot : RawSlot UserSettings),
      StorageUtils.getSettings now (StorageUtils.getSettings now slot).2
        = StorageUtils.getSettings now slot) ∧
    (∀ (calc_ : DailyStorageData → Nat) (now : Nat) (today : String)
        (slot : RawSlot DailyStorageData),
      DailyStorageManager.getCurrentData calc_ now today
          (DailyStorageManager.getCurrentData calc_ now today slot).2
        = DailyStorageManager.getCurrentData calc_ now today slot) ∧
    (∀ (now ts : Nat) (s : UserSettings), s.displayMode = none →
      StorageUtils.getSettings now (some (.ok s ts none))
        = ({ s with displayMode := some defaultDisplayMode },
            some (.ok { s with displayMode := some defaultDisplayMode } now none))) := by
  refine ⟨?_, ?_, ?_⟩
  · intro now slot
    rcases slot with _ | item
    · rfl
    rcases item with _ | ⟨v, vts, exp⟩
    · rfl
    rcases exp with _ | e
    · rcases hdm : v.displayMode with _ | m
      · simp [StorageUtils.getSettings, StorageUtils.get, StorageUtils.saveSettings,
          StorageUtils.set, hdm]
      · simp [StorageUtils.getSettings, StorageUtils.get, hdm]
    · by_cases hgt : now > e
      · simp [StorageUtils.getSettings, StorageUtils.get, hgt]
      · rcases hdm : v.displayMode with _ | m
        · simp [StorageUtils.getSettings, StorageUtils.get, StorageUtils.saveSettings,
            StorageUtils.set, hgt, hdm]
        · simp [StorageUtils.getSettings, StorageUtils.get, hgt, hdm]
  · intro calc_ now today slot
    rcases slot with _ | item
    · simp [DailyStorageManager.getCurrentData, DailyStorageManager.saveData,
        DailyStorageManager.saveDataValue, StorageUtils.get, StorageUtils.set,
        defaultSettings]
    rcases item with _ | ⟨v, vts, exp⟩
    · simp [DailyStorageManager.getCurrentData, DailyStorageManager.saveData,
        DailyStorageManager.saveDataValue, StorageUtils.get, StorageUtils.set,
        defaultSettings]
    rcases exp with _ | e
    · by_cases hdate : v.date = today
      · rcases hdm : v.settings.displayMode with _ | m
        · simp [DailyStorageManager.getCurrentData, DailyStorageManager.saveData,
            DailyStorageManager.saveDataValue, StorageUtils.get, StorageUtils.set,
            hdate, hdm]
        · simp [DailyStorageManager.getCurrentData, DailyStorageManager.saveData,
            DailyStorageManager.saveDataValue, StorageUtils.get, StorageUtils.set,
            hdate, hdm]
      · simp [DailyStorageManager.getCurrentData, DailyStorageManager.saveData,
          DailyStorageManager.saveDataValue, StorageUtils.get, StorageUtils.set,
          hdate, defaultSettings]
    · by_cases hgt : now > e
      · simp [DailyStorageManager.getCurrentData, DailyStorageManager.saveData,
          DailyStorageManager.saveDataValue, StorageUtils.get, StorageUtils.set,
          hgt, defaultSettings]
      · by_cases hdate : v.date = today
        · rcases hdm : v.settings.displayMode with _ | m
          · simp [DailyStorageManager.getCurrentData, DailyStorageManager.saveData,
              DailyStorageManager.saveDataValue, StorageUtils.get, StorageUtils.set,
              hgt, hdate, hdm]
          · simp [DailyStorageManager.getCurrentData, DailyStorageManager.saveData,
              DailyStorageManager.saveDataValue, StorageUtils.get, StorageUtils.set,
              hgt, hdate, hdm]
        · simp [DailyStorageManager.getCurrentData, DailyStorageManager.saveData,
            DailyStorageManager.saveDataValue, StorageUtils.get, StorageUtils.set,
            hgt, hdate, defaultSettings]
  · intro now ts s h
    simp [StorageUtils.getSettings, StorageUtils.get, StorageUtils.saveSettings,
      StorageUtils.set, h]

theorem c3_migration_idempotent_witness :
    StorageUtils.getSettings 7
        (some (.ok { defaultSettings with displayMode := none } 3 none))
      = (defaultSettings, some (.ok defaultSettings 7 none)) :=
  c3_migration_idempotent.2.2 7 3 { defaultSettings with displayMode := none } rfl

/-- C8: a storage key whose persisted bytes are corrupt/unparseable is read
as absent: `StorageUtils.get` returns `null`, `getTranscripts` returns the
empty list, and `getSettings` returns the default settings record. -/
theorem c8_corrupt_reads_default :
    (∀ (α : Type) (now : Nat), (StorageUtils.get (α := α) now (some .corrupt)).1 = none) ∧
    (∀ now : Nat, (TranscriptStorageManager.getTranscripts now (some .corrupt)).1 = []) ∧
    (∀ now : Nat, (StorageUtils.getSettings now (some .corrupt)).1 = defaultSettings) :=
  ⟨fun _ _ => rfl, fun _ => rfl, fun _ => rfl⟩

namespace ApiUtils

/-- C5: when the first two attempts fail with HTTP 500 and the third
succeeds, `request` returns the successful response after exactly 3
attempts with exactly two inter-attempt delays `retryDelay * attempt`
(1000ms, then 2000ms), each strictly larger than the previous. -/
theorem c5_retry_backoff {α : Type} (outcomes : Nat → FetchOutcome α)
    (e1 s1 e2 s2 : String) (d : α)
    (h1 : outcomes 1 = .http 500 e1 s1) (h2 : outcomes 2 = .http 500 e2 s2)
    (h3 : outcomes 3 = .ok d) :
    requestTrace outcomes = ⟨.ok d, 3, [1000 * 1, 1000 * 2]⟩ ∧
    List.Chain' (· < ·) (requestTrace outcomes).delays := by
  have hnr : isNonRetryable "Server error - please try again later" = false := by decide
  have hmain : requestTrace outcomes = ⟨.ok d, 3, [1000 * 1, 1000 * 2]⟩ := by
    simp [requestTrace, maxRetries, requestGo, h1, h2, h3, outcomeResult,
      messageOfStatus, hnr, retryDelay]
  refine ⟨hmain, ?_⟩
  rw [hmain]
  show List.Chain' (· < ·) [1000 * 1, 1000 * 2]
  simp [List.chain'_cons]

theorem c5_retry_backoff_witness :
    requestTrace (fun n => if n = 3 then FetchOutcome.ok (0 : Nat)
        else .http 500 "boom" "Internal Server Error")
      = ⟨.ok 0, 3, [1000 * 1, 1000 * 2]⟩ ∧
    List.Chain' (· < ·) (requestTrace (fun n => if n = 3 then FetchOutcome.ok (0 : Nat)
        else .http 500 "boom" "Internal Server Error")).delays :=
  c5_retry_backoff _ "boom" "Internal Server Error" "boom" "Internal Server Error"
    0 rfl rfl rfl

/-- C6 counterexample: a 413 (payload-too-large) response IS retried — with
a 413 on the first attempt and success on the second, the loop makes a
second attempt after a backoff delay, so "a 413 response is terminal and
never retried" is false on the code. -/
theorem c6_counterexample_413_retried :
    (requestTrace (fun n => if n = 2 then FetchOutcome.ok ()
        else .http 413 "too large" "Payload Too Large")).attemptsMade = 2 ∧
    (requestTrace (fun n => if n = 2 then FetchOutcome.ok ()
        else .http 413 "too large" "Payload Too Large")).delays = [1000] :=
  ⟨rfl, rfl⟩

/-- C6 amended: a 404 response terminates the retry loop immediately — the
error is returned after a single attempt with no delays; a 413, however,
is not classified non-retryable and is retried like a 5xx (a 413 followed
by a success yields the success on attempt 2 after one backoff delay). -/
theorem c6_terminal_classification {α : Type}
    (outcomes outcomes2 : Nat → FetchOutcome α)
    (et st et2 st2 : String) (d : α)
    (h1 : outcomes 1 = .http 404 et st)
    (h3 : outcomes2 1 = .http 413 et2 st2)
    (h4 : outcomes2 2 = .ok d) :
    requestTrace outcomes
      = ⟨.error "API endpoint not found - please check the server configuration", 1, []⟩ ∧
    requestTrace outcomes2 = ⟨.ok d, 2, [1000]⟩ := by
  have hnr404 : isNonRetryable
      "API endpoint not found - please check the server configuration" = true := by decide
  have hfinal : finalErrorMessage
      (some "API endpoint not found - please check the server configuration")
      = "API endpoint not found - please check the server configuration" := by decide
  have hnr413 : isNonRetryable
      "Audio file too large - please record a shorter message" = false := by decide
  constructor
  · simp [requestTrace, maxRetries, requestGo, h1, outcomeResult,
      messageOfStatus, hnr404, hfinal]
  · simp [requestTrace, maxRetries, requestGo, h3, h4, outcomeResult,
      messageOfStatus, hnr413, retryDelay]

theorem c6_terminal_classification_witness :
    requestTrace (fun _ => (FetchOutcome.http 404 "nf" "Not Found" : FetchOutcome Nat))
      = ⟨.error "API endpoint not found - please check the server configuration", 1, []⟩ ∧
    requestTrace (fun n => if n = 2 then FetchOutcome.ok (5 : Nat)
        else .http 413 "big" "Payload Too Large")
      = ⟨.ok 5, 2, [1000]⟩ :=
  c6_terminal_classification _ _ "nf" "Not Found" "big" "Payload Too Large" 5
    rfl rfl rfl

end ApiUtils

namespace AudioRecorder

/-- C4 counterexample: a capture session that stops with an empty chunk
buffer still invokes the success callback `onRecordingComplete`, with a
recording whose payload size is 0 — the error path is not taken, so "an
empty buffer is reported as failed / success is never invoked with size 0"
is false on the code. -/
theorem c4_counterexample_empty_buffer_success :
    (onstopHandler [] 0 0 ⟨true, true, none⟩).1 = StopOutcome.completed 0 0 := rfl

/-- C4 amended: on every stop, `onstop` invokes the success callback with
payload size equal to the total buffered bytes — including size 0 when the
chunk buffer is empty; no empty-buffer check routes the stop to the error
callback (that path fires only if the completion callback itself throws). -/
theorem c4_empty_buffer_still_succeeds (chunks : List Nat) (t0 t1 : Nat)
    (r : RecorderRefs) :
    (onstopHandler chunks t0 t1 r).1
      = .completed (chunks.foldl (· + ·) 0) (t1 - t0) := rfl

/-- C7 counterexample: two exit paths leak resources — when
`new MediaRecorder` throws after the stream was stored (a failure after
stream acquisition), the `catch` leaves the stream live; and the
mid-recording `onerror` handler leaves both the stream and the duration
timer untouched. -/
theorem c7_counterexample_error_paths_leak :
    (startRecordingRun (.recorderCtorFails "NotSupportedError" "mime type not supported")
        ⟨false, false, none⟩).streamLive = true ∧
    (onerrorHandler "device lost" ⟨true, true, none⟩).streamLive = true ∧
    (onerrorHandler "device lost" ⟨true, true, none⟩).timerActive = true :=
  ⟨rfl, rfl, rfl⟩

/-- C7 amended: the `onstop` path (successful stop and auto-stop at max
duration, which also goes through `stop()`/`onstop`) and the unmount
cleanup stop the stream tracks and clear the duration timer; but the
mid-recording `onerror` handler leaves stream and timer exactly as they
were, and the `startRecording` catch after the stream is acquired (e.g. a
`MediaRecorder` construction failure) exits with the stream still live. -/
theorem c7_cleanup_paths (chunks : List Nat) (t0 t1 : Nat)
    (msg errName errMsg : String) (r : RecorderRefs) :
    ((onstopHandler chunks t0 t1 r).2.streamLive = false ∧
     (onstopHandler chunks t0 t1 r).2.timerActive = false) ∧
    ((unmountCleanup r).streamLive = false ∧
     (unmountCleanup r).timerActive = false) ∧
    ((onerrorHandler msg r).streamLive = r.streamLive ∧
     (onerrorHandler msg r).timerActive = r.timerActive) ∧
    (startRecordingRun (.recorderCtorFails errName errMsg) r).streamLive = true :=
  ⟨⟨rfl, rfl⟩, ⟨rfl, rfl⟩, ⟨rfl, rfl⟩, rfl⟩

end AudioRecorder

end ToneBridge
